import Mathlib

/-!
Verification of the SNAP_FtsGamingControl helper (`helper/mouse_data.py`):
a USB game-controller poller that decodes interrupt reports into a set of
published fields (12 button booleans, 4 joystick axes, a connectivity flag
and a raw-data string) and serves them through read/write/metadata
callbacks.  The Python code is embedded shallowly: the published fields
become the record `ControllerState`, one pass of the decode block in
`MouseData.start_reading` becomes `decodeCore`, the error-handling of the
read loop becomes the step functions `readIteration` / `machineStep`, and
the Data Layer callbacks `__on_read`, `__on_write`, `__on_metadata` become
`on_read`, `on_write`, `on_metadata`.  Python floats produced by the
decoder are modelled as rationals: every value the decoder computes is
`byte/128 - 1` with `0 ≤ byte ≤ 255`, a dyadic rational with at most eight
significant bits, represented exactly by the source's float32 fields.
-/

/-- The published fields of `MouseData`: the mutable `Variant` attributes
holding the connectivity flag, the raw-data string, the twelve button
booleans and the four joystick axes (source lines 96-205). -/
structure ControllerState where
  controller_connected : Bool
  full_data : String
  left_button : Bool
  right_button : Bool
  left_button_bottom : Bool
  right_button_bottom : Bool
  b_button : Bool
  y_button : Bool
  x_button : Bool
  a_button : Bool
  up_cross_button : Bool
  down_cross_button : Bool
  left_cross_button : Bool
  right_cross_button : Bool
  l_joystick_x : ℚ
  l_joystick_y : ℚ
  r_joystick_x : ℚ
  r_joystick_y : ℚ
  deriving Repr, DecidableEq

/-- The values the `Variant` attributes receive in `MouseData.__init__`:
everything false / zero, `full_data` set to the placeholder string. -/
def initialState : ControllerState :=
  { controller_connected := false
    full_data := "No data available"
    left_button := false
    right_button := false
    left_button_bottom := false
    right_button_bottom := false
    b_button := false
    y_button := false
    x_button := false
    a_button := false
    up_cross_button := false
    down_cross_button := false
    left_cross_button := false
    right_cross_button := false
    l_joystick_x := 0
    l_joystick_y := 0
    r_joystick_x := 0
    r_joystick_y := 0 }

/-- `MouseData._set_safe_state`: connectivity false, all twelve buttons
false, all four axes 0.0.  The `full_data` update in the source is
commented out, so the string is left as it was. -/
def setSafeState (s : ControllerState) : ControllerState :=
  { s with
    controller_connected := false
    left_button := false
    right_button := false
    left_button_bottom := false
    right_button_bottom := false
    a_button := false
    b_button := false
    x_button := false
    y_button := false
    up_cross_button := false
    down_cross_button := false
    left_cross_button := false
    right_cross_button := false
    l_joystick_x := 0
    l_joystick_y := 0
    r_joystick_x := 0
    r_joystick_y := 0 }

/-- One decode pass of `MouseData.start_reading` (source lines 415-477),
applied to the previous published state `s` and the report bytes `data`:
first all twelve buttons are reset to false, then each designated bit
conditionally sets its flag, then the four axes are written as
`byte/128 - 1`.  Python indexing `data[i]` is rendered `data.getD i 0`;
`decodeReport` below restricts to the lengths for which every access
succeeds, so the default is never consulted there. -/
def decodeCore (s : ControllerState) (data : List Nat) : ControllerState :=
  let s := { s with
    left_button := false
    right_button := false
    right_button_bottom := false
    left_button_bottom := false
    b_button := false
    y_button := false
    x_button := false
    a_button := false
    up_cross_button := false
    down_cross_button := false
    left_cross_button := false
    right_cross_button := false }
  let clicked_button := data.getD 3 0
  let s := if clicked_button &&& 1 ≠ 0 then { s with left_button := true } else s
  let s := if clicked_button &&& 2 ≠ 0 then { s with right_button := true } else s
  let s := if clicked_button &&& 32 ≠ 0 then { s with b_button := true } else s
  let s := if clicked_button &&& 128 ≠ 0 then { s with y_button := true } else s
  let s := if clicked_button &&& 64 ≠ 0 then { s with x_button := true } else s
  let s := if clicked_button &&& 16 ≠ 0 then { s with a_button := true } else s
  let s := if data.getD 4 0 &&& 31 ≠ 0 then { s with left_button_bottom := true } else s
  let s := if data.getD 5 0 &&& 29 ≠ 0 then { s with right_button_bottom := true } else s
  let clicked_cross_button := data.getD 2 0
  let s := if clicked_cross_button &&& 1 ≠ 0 then { s with up_cross_button := true } else s
  let s := if clicked_cross_button &&& 2 ≠ 0 then { s with down_cross_button := true } else s
  let s := if clicked_cross_button &&& 4 ≠ 0 then { s with left_cross_button := true } else s
  let s := if clicked_cross_button &&& 8 ≠ 0 then { s with right_cross_button := true } else s
  let s := { s with l_joystick_x := (data.getD 6 0 : ℚ) / 128 - 1 }
  let s := { s with l_joystick_y := (data.getD 8 0 : ℚ) / 128 - 1 }
  let s := { s with r_joystick_x := (data.getD 10 0 : ℚ) / 128 - 1 }
  { s with r_joystick_y := (data.getD 12 0 : ℚ) / 128 - 1 }

/-- The decode pass as a fallible operation: the largest index the Python
code reads is `data[12]`, so on a report shorter than 13 bytes an
`IndexError` escapes the decode block (caught by the loop's
`except Exception` handler); on a report of at least 13 bytes every access
succeeds and the pass completes. -/
def decodeReport (s : ControllerState) (data : List Nat) : Option ControllerState :=
  if 13 ≤ data.length then some (decodeCore s data) else none

/-- The scenario report of spec §8: offsets 0 and 1 arbitrary (zero here),
bytes 2-12 as listed. -/
def c1Report : List Nat := [0, 0, 0x00, 0x21, 0x00, 0x00, 192, 0, 64, 0, 128, 0, 128]

/-- The 13-byte all-zero report. -/
def zeroReport13 : List Nat := [0, 0, 0, 0, 0, 0, 0, 0, 0, 0, 0, 0, 0]

lemma decodeCore_left_button (s : ControllerState) (data : List Nat) :
    (decodeCore s data).left_button = decide (data.getD 3 0 &&& 1 ≠ 0) := by
  simp [decodeCore, apply_ite ControllerState.left_button]

lemma decodeCore_right_button (s : ControllerState) (data : List Nat) :
    (decodeCore s data).right_button = decide (data.getD 3 0 &&& 2 ≠ 0) := by
  simp [decodeCore, apply_ite ControllerState.right_button]

lemma decodeCore_b_button (s : ControllerState) (data : List Nat) :
    (decodeCore s data).b_button = decide (data.getD 3 0 &&& 32 ≠ 0) := by
  simp [decodeCore, apply_ite ControllerState.b_button]

lemma decodeCore_y_button (s : ControllerState) (data : List Nat) :
    (decodeCore s data).y_button = decide (data.getD 3 0 &&& 128 ≠ 0) := by
  simp [decodeCore, apply_ite ControllerState.y_button]

lemma decodeCore_x_button (s : ControllerState) (data : List Nat) :
    (decodeCore s data).x_button = decide (data.getD 3 0 &&& 64 ≠ 0) := by
  simp [decodeCore, apply_ite ControllerState.x_button]

lemma decodeCore_a_button (s : ControllerState) (data : List Nat) :
    (decodeCore s data).a_button = decide (data.getD 3 0 &&& 16 ≠ 0) := by
  simp [decodeCore, apply_ite ControllerState.a_button]

lemma decodeCore_left_button_bottom (s : ControllerState) (data : List Nat) :
    (decodeCore s data).left_button_bottom = decide (data.getD 4 0 &&& 31 ≠ 0) := by
  simp [decodeCore, apply_ite ControllerState.left_button_bottom]

lemma decodeCore_right_button_bottom (s : ControllerState) (data : List Nat) :
    (decodeCore s data).right_button_bottom = decide (data.getD 5 0 &&& 29 ≠ 0) := by
  simp [decodeCore, apply_ite ControllerState.right_button_bottom]

lemma decodeCore_up_cross_button (s : ControllerState) (data : List Nat) :
    (decodeCore s data).up_cross_button = decide (data.getD 2 0 &&& 1 ≠ 0) := by
  simp [decodeCore, apply_ite ControllerState.up_cross_button]

lemma decodeCore_down_cross_button (s : ControllerState) (data : List Nat) :
    (decodeCore s data).down_cross_button = decide (data.getD 2 0 &&& 2 ≠ 0) := by
  simp [decodeCore, apply_ite ControllerState.down_cross_button]

lemma decodeCore_left_cross_button (s : ControllerState) (data : List Nat) :
    (decodeCore s data).left_cross_button = decide (data.getD 2 0 &&& 4 ≠ 0) := by
  simp [decodeCore, apply_ite ControllerState.left_cross_button]

lemma decodeCore_right_cross_button (s : ControllerState) (data : List Nat) :
    (decodeCore s data).right_cross_button = decide (data.getD 2 0 &&& 8 ≠ 0) := by
  simp [decodeCore, apply_ite ControllerState.right_cross_button]

lemma decodeCore_l_joystick_x (s : ControllerState) (data : List Nat) :
    (decodeCore s data).l_joystick_x = (data.getD 6 0 : ℚ) / 128 - 1 := by
  simp [decodeCore, apply_ite ControllerState.l_joystick_x]

lemma decodeCore_l_joystick_y (s : ControllerState) (data : List Nat) :
    (decodeCore s data).l_joystick_y = (data.getD 8 0 : ℚ) / 128 - 1 := by
  simp [decodeCore, apply_ite ControllerState.l_joystick_y]

lemma decodeCore_r_joystick_x (s : ControllerState) (data : List Nat) :
    (decodeCore s data).r_joystick_x = (data.getD 10 0 : ℚ) / 128 - 1 := by
  simp [decodeCore, apply_ite ControllerState.r_joystick_x]

lemma decodeCore_r_joystick_y (s : ControllerState) (data : List Nat) :
    (decodeCore s data).r_joystick_y = (data.getD 12 0 : ℚ) / 128 - 1 := by
  simp [decodeCore, apply_ite ControllerState.r_joystick_y]

lemma decodeCore_controller_connected (s : ControllerState) (data : List Nat) :
    (decodeCore s data).controller_connected = s.controller_connected := by
  simp [decodeCore, apply_ite ControllerState.controller_connected]

lemma decodeCore_full_data (s : ControllerState) (data : List Nat) :
    (decodeCore s data).full_data = s.full_data := by
  simp [decodeCore, apply_ite ControllerState.full_data]

lemma decide_mask_bit (n i m : ℕ) (hm : m = 2 ^ i) :
    decide (n &&& m ≠ 0) = n.testBit i := by
  subst hm
  rw [Nat.and_two_pow]
  cases h : n.testBit i <;> simp

lemma decodeReport_some (s out : ControllerState) (data : List Nat)
    (h : decodeReport s data = some out) : out = decodeCore s data := by
  rw [decodeReport] at h
  split at h <;> simp_all

/-- C2: for every report of at least 13 bytes (i.e. every report the decode
pass completes on), the twelve button flags follow the fixed bit table:
byte 3 bit 0 → left-bumper, bit 1 → right-bumper, bit 4 → A, bit 5 → B,
bit 6 → X, bit 7 → Y; byte 4 with any bit of mask 0b00011111 set →
left-trigger-as-button; byte 5 with any bit of mask 0b00011101 set →
right-trigger-as-button; byte 2 bits 0-3 → d-pad up/down/left/right as
independent flags. -/
theorem decode_button_bit_table (s out : ControllerState) (data : List Nat)
    (h : decodeReport s data = some out) :
    out.left_button = (data.getD 3 0).testBit 0 ∧
    out.right_button = (data.getD 3 0).testBit 1 ∧
    out.a_button = (data.getD 3 0).testBit 4 ∧
    out.b_button = (data.getD 3 0).testBit 5 ∧
    out.x_button = (data.getD 3 0).testBit 6 ∧
    out.y_button = (data.getD 3 0).testBit 7 ∧
    (out.left_button_bottom = true ↔ data.getD 4 0 &&& 31 ≠ 0) ∧
    (out.right_button_bottom = true ↔ data.getD 5 0 &&& 29 ≠ 0) ∧
    out.up_cross_button = (data.getD 2 0).testBit 0 ∧
    out.down_cross_button = (data.getD 2 0).testBit 1 ∧
    out.left_cross_button = (data.getD 2 0).testBit 2 ∧
    out.right_cross_button = (data.getD 2 0).testBit 3 := by
  have hout := decodeReport_some s out data h
  subst hout
  refine ⟨?_, ?_, ?_, ?_, ?_, ?_, ?_, ?_, ?_, ?_, ?_, ?_⟩
  · rw [decodeCore_left_button]
    exact decide_mask_bit _ 0 _ (by norm_num)
  · rw [decodeCore_right_button]
    exact decide_mask_bit _ 1 _ (by norm_num)
  · rw [decodeCore_a_button]
    exact decide_mask_bit _ 4 _ (by norm_num)
  · rw [decodeCore_b_button]
    exact decide_mask_bit _ 5 _ (by norm_num)
  · rw [decodeCore_x_button]
    exact decide_mask_bit _ 6 _ (by norm_num)
  · rw [decodeCore_y_button]
    exact decide_mask_bit _ 7 _ (by norm_num)
  · rw [decodeCore_left_button_bottom]
    simp
  · rw [decodeCore_right_button_bottom]
    simp
  · rw [decodeCore_up_cross_button]
    exact decide_mask_bit _ 0 _ (by norm_num)
  · rw [decodeCore_down_cross_button]
    exact decide_mask_bit _ 1 _ (by norm_num)
  · rw [decodeCore_left_cross_button]
    exact decide_mask_bit _ 2 _ (by norm_num)
  · rw [decodeCore_right_cross_button]
    exact decide_mask_bit _ 3 _ (by norm_num)

/-- Witness for C2 at the concrete scenario report. -/
theorem decode_button_bit_table_witness :
    (decodeCore initialState c1Report).left_button = (c1Report.getD 3 0).testBit 0 :=
  (decode_button_bit_table initialState (decodeCore initialState c1Report) c1Report rfl).1

/-- C1 as stated fails on the code: in the scenario report the byte at
offset 3 is 0x21, whose set bits are 0 and 5; the decoder maps bit 0 to
the left bumper and bit 5 to the B button, so at this concrete input
a-button and y-button decode to false while left-button and b-button
decode to true. -/
theorem c1_scenario_counterexample :
    decodeReport initialState c1Report = some (decodeCore initialState c1Report) ∧
    (decodeCore initialState c1Report).a_button = false ∧
    (decodeCore initialState c1Report).y_button = false ∧
    (decodeCore initialState c1Report).left_button = true ∧
    (decodeCore initialState c1Report).b_button = true := by
  refine ⟨rfl, ?_, ?_, ?_, ?_⟩ <;> decide

/-- C1 amended: for a report of at least 13 bytes whose bytes at offsets
2-12 are [0x00, 0x21, 0x00, 0x00, 192, 0, 64, 0, 128, 0, 128], one decode
pass yields exactly left-button (left bumper) = true and b-button = true
among the twelve button flags, all other buttons false, and axes
left-X = 0.5, left-Y = -0.5, right-X = 0.0, right-Y = 0.0. -/
theorem c1_scenario_decode (s out : ControllerState) (data : List Nat)
    (h : decodeReport s data = some out)
    (h2 : data.getD 2 0 = 0x00) (h3 : data.getD 3 0 = 0x21)
    (h4 : data.getD 4 0 = 0x00) (h5 : data.getD 5 0 = 0x00)
    (h6 : data.getD 6 0 = 192) (h8 : data.getD 8 0 = 64)
    (h10 : data.getD 10 0 = 128) (h12 : data.getD 12 0 = 128) :
    out.left_button = true ∧ out.b_button = true ∧
    out.right_button = false ∧ out.left_button_bottom = false ∧
    out.right_button_bottom = false ∧ out.a_button = false ∧
    out.x_button = false ∧ out.y_button = false ∧
    out.up_cross_button = false ∧ out.down_cross_button = false ∧
    out.left_cross_button = false ∧ out.right_cross_button = false ∧
    out.l_joystick_x = 1 / 2 ∧ out.l_joystick_y = -(1 / 2) ∧
    out.r_joystick_x = 0 ∧ out.r_joystick_y = 0 := by
  have hout := decodeReport_some s out data h
  subst hout
  refine ⟨?_, ?_, ?_, ?_, ?_, ?_, ?_, ?_, ?_, ?_, ?_, ?_, ?_, ?_, ?_, ?_⟩
  · rw [decodeCore_left_button, h3]; decide
  · rw [decodeCore_b_button, h3]; decide
  · rw [decodeCore_right_button, h3]; decide
  · rw [decodeCore_left_button_bottom, h4]; decide
  · rw [decodeCore_right_button_bottom, h5]; decide
  · rw [decodeCore_a_button, h3]; decide
  · rw [decodeCore_x_button, h3]; decide
  · rw [decodeCore_y_button, h3]; decide
  · rw [decodeCore_up_cross_button, h2]; decide
  · rw [decodeCore_down_cross_button, h2]; decide
  · rw [decodeCore_left_cross_button, h2]; decide
  · rw [decodeCore_right_cross_button, h2]; decide
  · rw [decodeCore_l_joystick_x, h6]; norm_num
  · rw [decodeCore_l_joystick_y, h8]; norm_num
  · rw [decodeCore_r_joystick_x, h10]; norm_num
  · rw [decodeCore_r_joystick_y, h12]; norm_num

/-- Witness for the amended C1 at the concrete scenario report. -/
theorem c1_scenario_decode_witness :
    (decodeCore initialState c1Report).left_button = true :=
  (c1_scenario_decode initialState (decodeCore initialState c1Report) c1Report
    rfl (by decide) (by decide) (by decide) (by decide) (by decide) (by decide)
    (by decide) (by decide)).1

/-- C3: the twelve button flags produced by a decode pass depend only on
the current report bytes, never on the previously published state (all
twelve are reset to false before any report byte is read); in particular
decoding any report `a` and then a report `b` whose bytes at offsets 2-5
are all zero leaves all twelve buttons false. -/
theorem decode_no_button_leakage (s t : ControllerState) (a b : List Nat)
    (hb2 : b.getD 2 0 = 0) (hb3 : b.getD 3 0 = 0)
    (hb4 : b.getD 4 0 = 0) (hb5 : b.getD 5 0 = 0) :
    ((decodeCore s a).left_button = (decodeCore t a).left_button ∧
     (decodeCore s a).right_button = (decodeCore t a).right_button ∧
     (decodeCore s a).left_button_bottom = (decodeCore t a).left_button_bottom ∧
     (decodeCore s a).right_button_bottom = (decodeCore t a).right_button_bottom ∧
     (decodeCore s a).a_button = (decodeCore t a).a_button ∧
     (decodeCore s a).b_button = (decodeCore t a).b_button ∧
     (decodeCore s a).x_button = (decodeCore t a).x_button ∧
     (decodeCore s a).y_button = (decodeCore t a).y_button ∧
     (decodeCore s a).up_cross_button = (decodeCore t a).up_cross_button ∧
     (decodeCore s a).down_cross_button = (decodeCore t a).down_cross_button ∧
     (decodeCore s a).left_cross_button = (decodeCore t a).left_cross_button ∧
     (decodeCore s a).right_cross_button = (decodeCore t a).right_cross_button) ∧
    ((decodeCore (decodeCore s a) b).left_button = false ∧
     (decodeCore (decodeCore s a) b).right_button = false ∧
     (decodeCore (decodeCore s a) b).left_button_bottom = false ∧
     (decodeCore (decodeCore s a) b).right_button_bottom = false ∧
     (decodeCore (decodeCore s a) b).a_button = false ∧
     (decodeCore (decodeCore s a) b).b_button = false ∧
     (decodeCore (decodeCore s a) b).x_button = false ∧
     (decodeCore (decodeCore s a) b).y_button = false ∧
     (decodeCore (decodeCore s a) b).up_cross_button = false ∧
     (decodeCore (decodeCore s a) b).down_cross_button = false ∧
     (decodeCore (decodeCore s a) b).left_cross_button = false ∧
     (decodeCore (decodeCore s a) b).right_cross_button = false) := by
  constructor
  · simp [decodeCore_left_button, decodeCore_right_button, decodeCore_b_button,
      decodeCore_y_button, decodeCore_x_button, decodeCore_a_button,
      decodeCore_left_button_bottom, decodeCore_right_button_bottom,
      decodeCore_up_cross_button, decodeCore_down_cross_button,
      decodeCore_left_cross_button, decodeCore_right_cross_button]
  · simp only [List.getD_eq_getElem?_getD] at hb2 hb3 hb4 hb5
    simp [decodeCore_left_button, decodeCore_right_button, decodeCore_b_button,
      decodeCore_y_button, decodeCore_x_button, decodeCore_a_button,
      decodeCore_left_button_bottom, decodeCore_right_button_bottom,
      decodeCore_up_cross_button, decodeCore_down_cross_button,
      decodeCore_left_cross_button, decodeCore_right_cross_button,
      hb2, hb3, hb4, hb5]

/-- Witness for C3: decoding the scenario report (which sets two buttons)
and then the all-zero report leaves the left button false. -/
theorem decode_no_button_leakage_witness :
    (decodeCore (decodeCore initialState c1Report) zeroReport13).left_button = false :=
  (decode_no_button_leakage initialState initialState c1Report zeroReport13
    (by decide) (by decide) (by decide) (by decide)).2.1

lemma byte_le_255 (data : List Nat) (hbytes : ∀ x ∈ data, x ≤ 255) (n : ℕ)
    (hn : n < data.length) : data.getD n 0 ≤ 255 := by
  rw [List.getD_eq_getElem data 0 hn]
  exact hbytes _ (List.getElem_mem hn)

lemma axis_lower (b : ℕ) : -1 ≤ (b : ℚ) / 128 - 1 := by
  have h0 : (0 : ℚ) ≤ (b : ℚ) := Nat.cast_nonneg b
  linarith

lemma axis_upper (b : ℕ) (hb : b ≤ 255) : (b : ℚ) / 128 - 1 ≤ 127 / 128 := by
  have h1 : (b : ℚ) ≤ 255 := by exact_mod_cast hb
  linarith

/-- C4: for every report of at least 13 bytes (whose entries are bytes,
i.e. at most 255), each published axis equals the unsigned source byte at
offsets 6, 8, 10, 12 divided by 128, minus 1; byte 0 maps to -1, byte 128
to 0, byte 255 to 127/128; every axis value lies in [-1, 127/128]; and
the mapping is strictly monotonically increasing in the byte value. -/
theorem decode_axis_mapping (s out : ControllerState) (data : List Nat)
    (h : decodeReport s data = some out) (hbytes : ∀ x ∈ data, x ≤ 255) :
    out.l_joystick_x = (data.getD 6 0 : ℚ) / 128 - 1 ∧
    out.l_joystick_y = (data.getD 8 0 : ℚ) / 128 - 1 ∧
    out.r_joystick_x = (data.getD 10 0 : ℚ) / 128 - 1 ∧
    out.r_joystick_y = (data.getD 12 0 : ℚ) / 128 - 1 ∧
    ((0 : ℚ) / 128 - 1 = -1) ∧
    ((128 : ℚ) / 128 - 1 = 0) ∧
    ((255 : ℚ) / 128 - 1 = 127 / 128) ∧
    (-1 ≤ out.l_joystick_x ∧ out.l_joystick_x ≤ 127 / 128) ∧
    (-1 ≤ out.l_joystick_y ∧ out.l_joystick_y ≤ 127 / 128) ∧
    (-1 ≤ out.r_joystick_x ∧ out.r_joystick_x ≤ 127 / 128) ∧
    (-1 ≤ out.r_joystick_y ∧ out.r_joystick_y ≤ 127 / 128) ∧
    (∀ b1 b2 : ℕ, b1 < b2 → (b1 : ℚ) / 128 - 1 < (b2 : ℚ) / 128 - 1) := by
  have hout := decodeReport_some s out data h
  have hlen : 13 ≤ data.length := by
    by_contra hl
    rw [decodeReport, if_neg hl] at h
    exact Option.noConfusion h
  subst hout
  refine ⟨decodeCore_l_joystick_x s data, decodeCore_l_joystick_y s data,
    decodeCore_r_joystick_x s data, decodeCore_r_joystick_y s data,
    by norm_num, by norm_num, by norm_num, ?_, ?_, ?_, ?_, ?_⟩
  · rw [decodeCore_l_joystick_x]
    exact ⟨axis_lower _, axis_upper _ (byte_le_255 data hbytes 6 (by omega))⟩
  · rw [decodeCore_l_joystick_y]
    exact ⟨axis_lower _, axis_upper _ (byte_le_255 data hbytes 8 (by omega))⟩
  · rw [decodeCore_r_joystick_x]
    exact ⟨axis_lower _, axis_upper _ (byte_le_255 data hbytes 10 (by omega))⟩
  · rw [decodeCore_r_joystick_y]
    exact ⟨axis_lower _, axis_upper _ (byte_le_255 data hbytes 12 (by omega))⟩
  · intro b1 b2 hb
    have : (b1 : ℚ) < (b2 : ℚ) := by exact_mod_cast hb
    linarith

/-- Witness for C4 at the concrete scenario report. -/
theorem decode_axis_mapping_witness :
    (decodeCore initialState c1Report).l_joystick_x = (c1Report.getD 6 0 : ℚ) / 128 - 1 :=
  (decode_axis_mapping initialState (decodeCore initialState c1Report) c1Report
    rfl (by decide)).1

/-- Outcome of one `dev.read` call in the poll loop, as classified by the
exception handlers of `MouseData.start_reading` (lines 399-515): a
successful read returning the report bytes (decoding may still fail on
too-short data), a timeout (`USBError` with errno 110), a
disconnect-class error (`USBError` with errno 19 ENODEV or 5 EIO), any
other `USBError`, or any other exception raised inside the try block. -/
inductive ReadOutcome where
  | ok (data : List Nat)
  | timeout
  | disconnectErr
  | otherUsbErr
  | otherExc
  deriving Repr, DecidableEq

/-- The loop's per-iteration mutable state: the published fields plus
whether a device handle is currently held (`dev` is not `None`). -/
structure LoopState where
  store : ControllerState
  hasDevice : Bool
  deriving Repr, DecidableEq

/-- One iteration of the `while True` read loop of
`MouseData.start_reading` with a live handle: a successful read of at
least 13 bytes publishes the decoded state and keeps the handle; a
shorter read raises `IndexError` during decoding, which the
`except Exception` handler turns into safe state plus handle drop; errno
110 hits `continue` immediately and changes nothing; errno 19/5, every
other `USBError` and every other exception publish the safe state and
drop the handle.  Every branch ends in `continue`: the function is total,
so no fault propagates out of the loop and the loop never returns. -/
def readIteration (st : LoopState) (o : ReadOutcome) : LoopState :=
  match o with
  | .ok data =>
      match decodeReport st.store data with
      | some s => { st with store := s }
      | none => { store := setSafeState st.store, hasDevice := false }
  | .timeout => st
  | .disconnectErr => { store := setSafeState st.store, hasDevice := false }
  | .otherUsbErr => { store := setSafeState st.store, hasDevice := false }
  | .otherExc => { store := setSafeState st.store, hasDevice := false }

/-- The read outcomes the source treats as faults: disconnect-class
errors, any other non-timeout `USBError`, and decode errors (a report
shorter than the 13 bytes the decoder indexes into). -/
def isFaultOutcome (o : ReadOutcome) : Bool :=
  match o with
  | .ok data => decide (data.length < 13)
  | .timeout => false
  | .disconnectErr => true
  | .otherUsbErr => true
  | .otherExc => true

/-- A read outcome after which the decode pass completes and publishes. -/
def isSuccessRead (o : ReadOutcome) : Bool :=
  match o with
  | .ok data => decide (13 ≤ data.length)
  | _ => false

/-- C5: on every disconnect-class error, every other non-timeout
transport fault and every decode error, the store is put into the safe
state before the next read attempt — connectivity false, all twelve
buttons false, all four axes 0.0, whatever was published before — and
the handle is dropped; `readIteration` being total, the fault neither
raises out of the loop nor ends it. -/
theorem fault_publishes_safe_state (st : LoopState) (o : ReadOutcome)
    (h : isFaultOutcome o = true) :
    (readIteration st o).store.controller_connected = false ∧
    (readIteration st o).store.left_button = false ∧
    (readIteration st o).store.right_button = false ∧
    (readIteration st o).store.left_button_bottom = false ∧
    (readIteration st o).store.right_button_bottom = false ∧
    (readIteration st o).store.a_button = false ∧
    (readIteration st o).store.b_button = false ∧
    (readIteration st o).store.x_button = false ∧
    (readIteration st o).store.y_button = false ∧
    (readIteration st o).store.up_cross_button = false ∧
    (readIteration st o).store.down_cross_button = false ∧
    (readIteration st o).store.left_cross_button = false ∧
    (readIteration st o).store.right_cross_button = false ∧
    (readIteration st o).store.l_joystick_x = 0 ∧
    (readIteration st o).store.l_joystick_y = 0 ∧
    (readIteration st o).store.r_joystick_x = 0 ∧
    (readIteration st o).store.r_joystick_y = 0 ∧
    (readIteration st o).hasDevice = false := by
  cases o with
  | ok data =>
      simp only [isFaultOutcome, decide_eq_true_eq] at h
      have hlen : ¬ 13 ≤ data.length := by omega
      simp [readIteration, decodeReport, hlen, setSafeState]
  | timeout => simp [isFaultOutcome] at h
  | disconnectErr => simp [readIteration, setSafeState]
  | otherUsbErr => simp [readIteration, setSafeState]
  | otherExc => simp [readIteration, setSafeState]

/-- Witness for C5: a disconnect while a fully decoded nontrivial state
was published leaves connectivity false. -/
theorem fault_publishes_safe_state_witness :
    (readIteration
      { store := decodeCore initialState c1Report, hasDevice := true }
      ReadOutcome.disconnectErr).store.controller_connected = false :=
  (fault_publishes_safe_state
    { store := decodeCore initialState c1Report, hasDevice := true }
    ReadOutcome.disconnectErr (by decide)).1

/-- C6: a timeout (`USBError` errno 110, line 484) hits `continue` before
any field is written: the iteration returns the identical loop state —
every button flag, every axis, the connectivity flag and the full-data
string are unchanged and the same device handle is used for the next
read. -/
theorem timeout_leaves_state_unchanged (st : LoopState) :
    readIteration st ReadOutcome.timeout = st := rfl

/-- Events driving the connection state machine of
`MouseData.start_reading`: a successful acquire (device found, interface
claimed, lines 296-333 on startup and 341-398 on reconnect), an absent
device (find returned `None`: sleep and retry), a failed reconnect
(endpoint access or claim raised: safe state and retry), and one read
with its outcome. -/
inductive LoopEvent where
  | acquireOk
  | acquireAbsent
  | acquireFailed
  | read (o : ReadOutcome)
  deriving Repr, DecidableEq

/-- Whole-loop state: the published fields, whether a handle is held, and
how many reports have been successfully decoded since the current handle
was acquired (an auxiliary counter used to state C7; the source keeps no
such counter). -/
structure MachineState where
  store : ControllerState
  hasDevice : Bool
  readsSinceAcquire : Nat
  deriving Repr, DecidableEq

/-- One transition of the poll loop.  With a handle held, only reads
happen and they follow `readIteration`; the success counter advances on a
completed decode and resets when the handle is dropped.  Without a
handle, a successful acquire sets only the connectivity flag to true
(lines 333 and 396 — the other fields keep their previous values) and
zeroes the counter; an absent device changes nothing; a failed reconnect
publishes the safe state and stays handle-less. -/
def machineStep (st : MachineState) (e : LoopEvent) : MachineState :=
  if st.hasDevice then
    match e with
    | .read o =>
        let next := readIteration { store := st.store, hasDevice := true } o
        { store := next.store
          hasDevice := next.hasDevice
          readsSinceAcquire :=
            if next.hasDevice then
              (if isSuccessRead o then st.readsSinceAcquire + 1 else st.readsSinceAcquire)
            else 0 }
    | _ => st
  else
    match e with
    | .acquireOk =>
        { store := { st.store with controller_connected := true }
          hasDevice := true
          readsSinceAcquire := 0 }
    | .acquireAbsent => st
    | .acquireFailed =>
        { store := setSafeState st.store, hasDevice := false, readsSinceAcquire := 0 }
    | .read _ => st

/-- The loop run over a list of events. -/
def machineRun (st : MachineState) (evs : List LoopEvent) : MachineState :=
  evs.foldl machineStep st

/-- The state on entry to `start_reading`: `_set_safe_state` has run on
the freshly constructed fields and no device is held. -/
def machineInit : MachineState :=
  { store := setSafeState initialState, hasDevice := false, readsSinceAcquire := 0 }

/-- C7 as stated fails on the code: immediately after the interface is
claimed (line 333 on startup, line 396 on reconnect) the connectivity
flag is already true although no report has yet been read within the
current connection lifetime. -/
theorem connected_before_first_read_counterexample :
    (machineRun machineInit [LoopEvent.acquireOk]).store.controller_connected = true ∧
    (machineRun machineInit [LoopEvent.acquireOk]).readsSinceAcquire = 0 := by
  exact ⟨rfl, rfl⟩

lemma machineStep_conn_inv (st : MachineState)
    (hst : st.store.controller_connected = true → st.hasDevice = true)
    (e : LoopEvent) :
    (machineStep st e).store.controller_connected = true →
      (machineStep st e).hasDevice = true := by
  intro hconn
  rw [machineStep.eq_def] at hconn ⊢
  by_cases hdev : st.hasDevice
  · rw [if_pos hdev] at hconn ⊢
    cases e with
    | read o =>
        cases o with
        | ok data =>
            simp only [readIteration] at hconn ⊢
            cases hdec : decodeReport st.store data with
            | some s => simp [hdec]
            | none => simp [hdec, setSafeState] at hconn
        | timeout => rfl
        | disconnectErr => simp [readIteration, setSafeState] at hconn
        | otherUsbErr => simp [readIteration, setSafeState] at hconn
        | otherExc => simp [readIteration, setSafeState] at hconn
    | acquireOk => exact hdev
    | acquireAbsent => exact hdev
    | acquireFailed => exact hdev
  · rw [if_neg hdev] at hconn ⊢
    cases e with
    | read o => exact hst hconn
    | acquireOk => rfl
    | acquireAbsent => exact hst hconn
    | acquireFailed => simp [setSafeState] at hconn

lemma machineRun_conn_inv (st : MachineState)
    (hst : st.store.controller_connected = true → st.hasDevice = true)
    (evs : List LoopEvent) :
    (machineRun st evs).store.controller_connected = true →
      (machineRun st evs).hasDevice = true := by
  induction evs generalizing st with
  | nil => exact hst
  | cons e rest ih => exact ih (machineStep st e) (machineStep_conn_inv st hst e)

/-- C7 amended: in every reachable state of the poll loop, connectivity
true implies a device handle is currently held — the flag is set true on
a successful interface claim, which happens before any report is read in
that connection lifetime — and the safe state published on every
disconnect/fatal classification carries connectivity false. -/
theorem connectivity_flag_lifetime (evs : List LoopEvent) :
    ((machineRun machineInit evs).store.controller_connected = true →
      (machineRun machineInit evs).hasDevice = true) ∧
    (∀ s : ControllerState, (setSafeState s).controller_connected = false) := by
  constructor
  · exact machineRun_conn_inv machineInit (fun h => by simp [machineInit, setSafeState] at h) evs
  · intro s
    rfl

/-- Witness for the amended C7: after one successful acquire the flag is
true and indeed a handle is held. -/
theorem connectivity_flag_lifetime_witness :
    (machineRun machineInit [LoopEvent.acquireOk]).hasDevice = true :=
  (connectivity_flag_lifetime [LoopEvent.acquireOk]).1 rfl

/-- The payload types of `ctrlxdatalayer.variant.VariantType` occurring
at the provider boundary: the registered fields hold BOOL8, FLOAT32 and
STRING variants; `unknown` stands for every other member of the enum a
write payload may carry. -/
inductive VariantKind where
  | string
  | bool8
  | float32
  | unknown
  deriving Repr, DecidableEq

/-- The `ctrlxdatalayer.variant.Result` codes the callbacks return. -/
inductive DLResult where
  | ok
  | invalidAddress
  | typeMismatch
  | unsupported
  deriving Repr, DecidableEq

/-- The payload handed to a read callback: the current `Variant` value of
one published field. -/
inductive DLValue where
  | boolVal (b : Bool)
  | stringVal (t : String)
  | floatVal (q : ℚ)
  deriving Repr, DecidableEq

/-- The eighteen field identifiers registered in
`MouseData.register_nodes`, in registration order. -/
def fieldIds : List String :=
  ["controller-connected", "full-data", "left-button", "right-button",
   "left-button-bottom", "right-button-bottom", "b-button", "y-button",
   "x-button", "a-button", "up-cross-button", "down-cross-button",
   "left-cross-button", "right-cross-button", "Left-Joystick-X",
   "Left-Joystick-Y", "Right-Joystick-X", "Right-Joystick-Y"]

/-- Python's `str.endswith`, rendered on the character sequences of the
two strings: `fid` is a suffix of `address`.  (Lean's own
`String.endsWith` is extensionally the same test but is opaque to kernel
evaluation.) -/
def endsWithSuffix (address fid : String) : Bool :=
  fid.data.isSuffixOf address.data

/-- `MouseData.__on_read`: a chain of `address.endswith(...)` tests in
source order, each answering OK with the live `Variant` of the matched
field; when nothing matches the callback answers INVALID_ADDRESS with no
value. -/
def on_read (store : ControllerState) (address : String) : DLResult × Option DLValue :=
  if endsWithSuffix address "controller-connected" then (.ok, some (.boolVal store.controller_connected))
  else if endsWithSuffix address "full-data" then (.ok, some (.stringVal store.full_data))
  else if endsWithSuffix address "left-button" then (.ok, some (.boolVal store.left_button))
  else if endsWithSuffix address "right-button" then (.ok, some (.boolVal store.right_button))
  else if endsWithSuffix address "left-button-bottom" then (.ok, some (.boolVal store.left_button_bottom))
  else if endsWithSuffix address "right-button-bottom" then (.ok, some (.boolVal store.right_button_bottom))
  else if endsWithSuffix address "b-button" then (.ok, some (.boolVal store.b_button))
  else if endsWithSuffix address "y-button" then (.ok, some (.boolVal store.y_button))
  else if endsWithSuffix address "x-button" then (.ok, some (.boolVal store.x_button))
  else if endsWithSuffix address "a-button" then (.ok, some (.boolVal store.a_button))
  else if endsWithSuffix address "up-cross-button" then (.ok, some (.boolVal store.up_cross_button))
  else if endsWithSuffix address "down-cross-button" then (.ok, some (.boolVal store.down_cross_button))
  else if endsWithSuffix address "left-cross-button" then (.ok, some (.boolVal store.left_cross_button))
  else if endsWithSuffix address "right-cross-button" then (.ok, some (.boolVal store.right_cross_button))
  else if endsWithSuffix address "Left-Joystick-X" then (.ok, some (.floatVal store.l_joystick_x))
  else if endsWithSuffix address "Left-Joystick-Y" then (.ok, some (.floatVal store.l_joystick_y))
  else if endsWithSuffix address "Right-Joystick-X" then (.ok, some (.floatVal store.r_joystick_x))
  else if endsWithSuffix address "Right-Joystick-Y" then (.ok, some (.floatVal store.r_joystick_y))
  else (.invalidAddress, none)

/-- `MouseData.__on_metadata`: the same suffix chain, answering OK with
the matched field's static metadata `Variant` (modelled by the name of
the `Variant` attribute; its flatbuffer bytes are not needed here); when
nothing matches the callback answers OK with no payload (line 781). -/
def on_metadata (address : String) : DLResult × Option String :=
  if endsWithSuffix address "controller-connected" then (.ok, some "controller_connected_metadata")
  else if endsWithSuffix address "full-data" then (.ok, some "full_data_metadata")
  else if endsWithSuffix address "left-button" then (.ok, some "left_button_metadata")
  else if endsWithSuffix address "right-button" then (.ok, some "right_button_metadata")
  else if endsWithSuffix address "left-button-bottom" then (.ok, some "left_button_bottom_metadata")
  else if endsWithSuffix address "right-button-bottom" then (.ok, some "right_button_bottom_metadata")
  else if endsWithSuffix address "b-button" then (.ok, some "b_button_metadata")
  else if endsWithSuffix address "y-button" then (.ok, some "y_button_metadata")
  else if endsWithSuffix address "x-button" then (.ok, some "x_button_metadata")
  else if endsWithSuffix address "a-button" then (.ok, some "a_button_metadata")
  else if endsWithSuffix address "up-cross-button" then (.ok, some "up_cross_button_metadata")
  else if endsWithSuffix address "down-cross-button" then (.ok, some "down_cross_button_metadata")
  else if endsWithSuffix address "left-cross-button" then (.ok, some "left_cross_button_metadata")
  else if endsWithSuffix address "right-cross-button" then (.ok, some "right_cross_button_metadata")
  else if endsWithSuffix address "Left-Joystick-X" then (.ok, some "l_joystick_x_metadata")
  else if endsWithSuffix address "Left-Joystick-Y" then (.ok, some "l_joystick_y_metadata")
  else if endsWithSuffix address "Right-Joystick-X" then (.ok, some "r_joystick_x_metadata")
  else if endsWithSuffix address "Right-Joystick-Y" then (.ok, some "r_joystick_y_metadata")
  else (.ok, none)

/-- `MouseData.__on_write`: the payload type is compared with STRING
first; any other type answers TYPE_MISMATCH, and a STRING payload falls
through to INVALID_ADDRESS whatever the address.  The callback reads and
writes no store field, which the embedding renders by returning the
store untouched alongside the result. -/
def on_write (store : ControllerState) (address : String) (ptype : VariantKind) :
    DLResult × Option DLValue × ControllerState :=
  if ptype ≠ VariantKind.string then (.typeMismatch, none, store)
  else (.invalidAddress, none, store)

/-- C8: every write is rejected without modifying any stored value: the
type check runs first, so a non-STRING payload completes with
TYPE_MISMATCH; every payload that passes the type check completes with
INVALID_ADDRESS; no write ever completes with OK.  The expected payload
type the source checks against is STRING for every address. -/
theorem write_always_rejected (store : ControllerState) (address : String)
    (ptype : VariantKind) :
    (on_write store address ptype).2.2 = store ∧
    (on_write store address ptype).1 ≠ DLResult.ok ∧
    (ptype ≠ VariantKind.string →
      (on_write store address ptype).1 = DLResult.typeMismatch) ∧
    (ptype = VariantKind.string →
      (on_write store address ptype).1 = DLResult.invalidAddress) := by
  cases ptype <;> simp [on_write]

/-- Witness for C8: a BOOL8 payload aimed at a registered button address
is answered with TYPE_MISMATCH. -/
theorem write_always_rejected_witness :
    (on_write initialState "gaming-control/a-button" VariantKind.bool8).1 =
      DLResult.typeMismatch :=
  (write_always_rejected initialState "gaming-control/a-button"
    VariantKind.bool8).2.2.1 (by decide)

/-- C10: for every address whose suffix matches none of the eighteen
registered field identifiers, `__on_read` completes with INVALID_ADDRESS
and no value, while `__on_metadata` completes with OK and no payload —
the two callbacks give different outcomes for unknown addresses. -/
theorem unknown_address_read_vs_metadata (store : ControllerState) (address : String)
    (h : ∀ fid ∈ fieldIds, endsWithSuffix address fid = false) :
    on_read store address = (DLResult.invalidAddress, none) ∧
    on_metadata address = (DLResult.ok, none) ∧
    (on_read store address).1 ≠ (on_metadata address).1 := by
  simp only [fieldIds, List.forall_mem_cons, List.forall_mem_nil] at h
  obtain ⟨h1, h2, h3, h4, h5, h6, h7, h8, h9, h10, h11, h12, h13, h14, h15, h16, h17, h18, -⟩ := h
  refine ⟨?_, ?_, ?_⟩ <;>
    simp [on_read, on_metadata, h1, h2, h3, h4, h5, h6, h7, h8, h9, h10,
      h11, h12, h13, h14, h15, h16, h17, h18]

/-- Witness for C10 at a concrete unknown address. -/
theorem unknown_address_read_vs_metadata_witness :
    on_read initialState "gaming-control/rumble" = (DLResult.invalidAddress, none) :=
  (unknown_address_read_vs_metadata initialState "gaming-control/rumble"
    (by decide)).1

/-- One atomic assignment to a published field: in the source every
`set_bool8` / `set_float32` call writes one `Variant` attribute.  The
decode block performs these writes strictly one after another with no
lock held (the `Lock` import of the source is never used), and a Data
Layer read callback may run between any two of them. -/
inductive FieldWrite where
  | wLeftButton (b : Bool)
  | wRightButton (b : Bool)
  | wLeftButtonBottom (b : Bool)
  | wRightButtonBottom (b : Bool)
  | wBButton (b : Bool)
  | wYButton (b : Bool)
  | wXButton (b : Bool)
  | wAButton (b : Bool)
  | wUpCross (b : Bool)
  | wDownCross (b : Bool)
  | wLeftCross (b : Bool)
  | wRightCross (b : Bool)
  | wLJoyX (q : ℚ)
  | wLJoyY (q : ℚ)
  | wRJoyX (q : ℚ)
  | wRJoyY (q : ℚ)
  deriving Repr, DecidableEq

/-- Effect of one field write on the store. -/
def applyWrite (s : ControllerState) (w : FieldWrite) : ControllerState :=
  match w with
  | .wLeftButton b => { s with left_button := b }
  | .wRightButton b => { s with right_button := b }
  | .wLeftButtonBottom b => { s with left_button_bottom := b }
  | .wRightButtonBottom b => { s with right_button_bottom := b }
  | .wBButton b => { s with b_button := b }
  | .wYButton b => { s with y_button := b }
  | .wXButton b => { s with x_button := b }
  | .wAButton b => { s with a_button := b }
  | .wUpCross b => { s with up_cross_button := b }
  | .wDownCross b => { s with down_cross_button := b }
  | .wLeftCross b => { s with left_cross_button := b }
  | .wRightCross b => { s with right_cross_button := b }
  | .wLJoyX q => { s with l_joystick_x := q }
  | .wLJoyY q => { s with l_joystick_y := q }
  | .wRJoyX q => { s with r_joystick_x := q }
  | .wRJoyY q => { s with r_joystick_y := q }

/-- A sequence of field writes applied in program order. -/
def applyWrites (s : ControllerState) (ws : List FieldWrite) : ControllerState :=
  ws.foldl applyWrite s

/-- The decode pass of lines 415-477 as the exact sequence of `Variant`
writes the source performs: twelve unconditional resets in source order,
then one conditional write per tested bit (present only when the bit is
set, since Python only calls `set_bool8(True)` inside the taken branch),
then the four axis writes. -/
def decodeWrites (data : List Nat) : List FieldWrite :=
  [.wLeftButton false, .wRightButton false, .wRightButtonBottom false,
   .wLeftButtonBottom false, .wBButton false, .wYButton false,
   .wXButton false, .wAButton false, .wUpCross false, .wDownCross false,
   .wLeftCross false, .wRightCross false] ++
  (if data.getD 3 0 &&& 1 ≠ 0 then [FieldWrite.wLeftButton true] else []) ++
  (if data.getD 3 0 &&& 2 ≠ 0 then [FieldWrite.wRightButton true] else []) ++
  (if data.getD 3 0 &&& 32 ≠ 0 then [FieldWrite.wBButton true] else []) ++
  (if data.getD 3 0 &&& 128 ≠ 0 then [FieldWrite.wYButton true] else []) ++
  (if data.getD 3 0 &&& 64 ≠ 0 then [FieldWrite.wXButton true] else []) ++
  (if data.getD 3 0 &&& 16 ≠ 0 then [FieldWrite.wAButton true] else []) ++
  (if data.getD 4 0 &&& 31 ≠ 0 then [FieldWrite.wLeftButtonBottom true] else []) ++
  (if data.getD 5 0 &&& 29 ≠ 0 then [FieldWrite.wRightButtonBottom true] else []) ++
  (if data.getD 2 0 &&& 1 ≠ 0 then [FieldWrite.wUpCross true] else []) ++
  (if data.getD 2 0 &&& 2 ≠ 0 then [FieldWrite.wDownCross true] else []) ++
  (if data.getD 2 0 &&& 4 ≠ 0 then [FieldWrite.wLeftCross true] else []) ++
  (if data.getD 2 0 &&& 8 ≠ 0 then [FieldWrite.wRightCross true] else []) ++
  [.wLJoyX ((data.getD 6 0 : ℚ) / 128 - 1), .wLJoyY ((data.getD 8 0 : ℚ) / 128 - 1),
   .wRJoyX ((data.getD 10 0 : ℚ) / 128 - 1), .wRJoyY ((data.getD 12 0 : ℚ) / 128 - 1)]

/-- A 13-byte report with no buttons pressed and all axis bytes 255. -/
def fullReport13 : List Nat := [0, 0, 0, 0, 0, 0, 255, 0, 255, 0, 255, 0, 255]

/-- The store after fully publishing the all-zero report (all axes -1). -/
def storeAfterA : ControllerState := applyWrites initialState (decodeWrites zeroReport13)

/-- The store after then fully publishing `fullReport13` (axes 127/128). -/
def storeAfterB : ControllerState := applyWrites storeAfterA (decodeWrites fullReport13)

/-- The store at the intermediate point of publishing `fullReport13`
just after its left-X write — the 13th of its 16 writes (12 resets, no
conditional button writes, then the axes). -/
def storeMid : ControllerState := applyWrites storeAfterA ((decodeWrites fullReport13).take 13)

/-- C9 as stated fails on the code: publishing is a plain sequence of
per-field `Variant` writes with no mutual exclusion, so a reader running
between the left-X and left-Y writes of report B observes a state that
mixes B's left-X with A's left-Y — it equals neither the fully published
state of A nor that of B. -/
theorem publish_not_atomic_counterexample :
    storeMid.l_joystick_x = storeAfterB.l_joystick_x ∧
    storeMid.l_joystick_y = storeAfterA.l_joystick_y ∧
    storeMid ≠ storeAfterA ∧
    storeMid ≠ storeAfterB := by
  have h1 : storeMid.l_joystick_x = ((255 : ℕ) : ℚ) / 128 - 1 := rfl
  have h2 : storeMid.l_joystick_y = ((0 : ℕ) : ℚ) / 128 - 1 := rfl
  have h3 : storeAfterA.l_joystick_x = ((0 : ℕ) : ℚ) / 128 - 1 := rfl
  have h4 : storeAfterB.l_joystick_y = ((255 : ℕ) : ℚ) / 128 - 1 := rfl
  have h5 : storeAfterB.l_joystick_x = ((255 : ℕ) : ℚ) / 128 - 1 := rfl
  have hne : ((0 : ℕ) : ℚ) / 128 - 1 ≠ ((255 : ℕ) : ℚ) / 128 - 1 := by norm_num
  refine ⟨h1.trans h5.symm, rfl, ?_, ?_⟩
  · intro h
    have hx := congrArg ControllerState.l_joystick_x h
    rw [h1, h3] at hx
    exact hne hx.symm
  · intro h
    have hy := congrArg ControllerState.l_joystick_y h
    rw [h2, h4] at hy
    exact hne hy

/-- C9 amended: publishing replaces the store one field at a time with no
lock, so it is not atomic with respect to readers: for every prior store
state and every report with no button bits set (so the write sequence is
the twelve resets followed by the four axis writes), the store visible
just after the report's left-X write already holds the new left-X while
left-Y and both right axes still hold the prior values — a concurrent
reader at that instant observes a partially-updated mix, and what it
reads is the live store, not a copy insulated from the remaining writes.
The full write sequence does coincide with the decode pass's final
state. -/
theorem publish_interleaving_mixed_state (s : ControllerState) (b : List Nat)
    (hb2 : b.getD 2 0 = 0) (hb3 : b.getD 3 0 = 0)
    (hb4 : b.getD 4 0 = 0) (hb5 : b.getD 5 0 = 0) :
    (applyWrites s ((decodeWrites b).take 13)).l_joystick_x = (b.getD 6 0 : ℚ) / 128 - 1 ∧
    (applyWrites s ((decodeWrites b).take 13)).l_joystick_y = s.l_joystick_y ∧
    (applyWrites s ((decodeWrites b).take 13)).r_joystick_x = s.r_joystick_x ∧
    (applyWrites s ((decodeWrites b).take 13)).r_joystick_y = s.r_joystick_y ∧
    applyWrites s (decodeWrites b) = decodeCore s b := by
  simp only [List.getD_eq_getElem?_getD] at hb2 hb3 hb4 hb5
  refine ⟨?_, ?_, ?_, ?_, ?_⟩ <;>
    simp [decodeWrites, applyWrites, applyWrite, decodeCore,
      hb2, hb3, hb4, hb5]

/-- Witness for the amended C9 at a concrete prior state and report. -/
theorem publish_interleaving_mixed_state_witness :
    (applyWrites storeAfterA ((decodeWrites fullReport13).take 13)).l_joystick_x =
      (fullReport13.getD 6 0 : ℚ) / 128 - 1 :=
  (publish_interleaving_mixed_state storeAfterA fullReport13
    (by decide) (by decide) (by decide) (by decide)).1
